import Mathlib

/-!
Verification of the weather-and-time-agent repository.

This file contains a shallow embedding of the two tool functions from
src/multi_tool_agent/agent.py (get_weather, get_current_time), of the REPL
loop and mode selection from src/multi_tool_agent/cli.py, and, clearly marked
as such, spec-modelled definitions of the Tool / Registry / Dispatcher core
whose module is imported by cli.py but is not present under src/.

Environment variables are modelled as a function from names to optional
strings, the HTTP layer as an oracle from requests to either an exception
(requests.exceptions.RequestException, which also covers raise_for_status and
JSON decoding failures) or a JSON body.  Each embedded tool function returns
the Python dict it produces (as an association list) inside Except, where the
error case models an uncaught Python exception, together with the list of
HTTP requests it performed.
-/

/-- A JSON value as returned by the HTTP APIs; numbers are modelled as
rationals. -/
inductive Json where
  | null : Json
  | bool (b : Bool) : Json
  | num (q : ℚ) : Json
  | str (s : String) : Json
  | arr (xs : List Json) : Json
  | obj (kvs : List (String × Json)) : Json

/-- The Python exceptions that the embedded code can raise.  keyError carries
the already-rendered result of str(e). -/
inductive PyErr where
  | requestException (msg : String) : PyErr
  | keyError (msg : String) : PyErr
  | indexError : PyErr
  | typeError : PyErr
deriving DecidableEq

/-- A Python dict whose values are strings, as an association list in
insertion order. -/
abbrev Dict := List (String × String)

/-- A single-quote character as a string (used by Python repr of str keys). -/
def pyQuote : String := String.singleton (Char.ofNat 39)

/-- The error-envelope dict literal used throughout agent.py:
status first, then error_message. -/
def errDict (m : String) : Dict := [("status", "error"), ("error_message", m)]

/-- The success-envelope dict literal used throughout agent.py:
status first, then report. -/
def okDict (r : String) : Dict := [("status", "success"), ("report", r)]

/-- Python truthiness of os.environ.get: None and the empty string are
falsy. -/
def isFalsy : Option String → Bool
  | none => true
  | some s => s.isEmpty

/-- Python subscripting j[k] with a string key: succeeds only on dicts,
raises KeyError (whose str(e) is the repr of the key) when the key is absent,
TypeError on any non-dict value. -/
def jGet (j : Json) (k : String) : Except PyErr Json :=
  match j with
  | .obj kvs =>
    match kvs.lookup k with
    | some v => .ok v
    | none => .error (.keyError (pyQuote ++ k ++ pyQuote))
  | _ => .error .typeError

/-- Python subscripting j[i] with an integer index: indexes lists and
strings (IndexError when out of range), raises KeyError on dicts (str(e) is
the integer itself) and TypeError otherwise. -/
def jIdx (j : Json) (i : Nat) : Except PyErr Json :=
  match j with
  | .arr xs =>
    match xs.get? i with
    | some v => .ok v
    | none => .error .indexError
  | .obj _ => .error (.keyError (toString i))
  | .str s =>
    match s.data.get? i with
    | some c => .ok (.str (String.singleton c))
    | none => .error .indexError
  | _ => .error .typeError

/-- Using a JSON value in Python arithmetic (temp_c * 9/5): numbers are used
as such, bools coerce to 0/1 (bool is an int subclass), anything else raises
TypeError. -/
def asNum : Json → Except PyErr ℚ
  | .num q => .ok q
  | .bool true => .ok 1
  | .bool false => .ok 0
  | _ => .error .typeError

/-- Python truthiness of a JSON value (the `if not geocode_data` check). -/
def jFalsy : Json → Bool
  | .null => true
  | .bool b => !b
  | .num q => decide (q = 0)
  | .str s => s.isEmpty
  | .arr xs => xs.isEmpty
  | .obj kvs => kvs.isEmpty

/-- Python dict .get(k, default). -/
def jGetD (j : Json) (k : String) (dflt : Json) : Json :=
  match j with
  | .obj kvs => (kvs.lookup k).getD dflt
  | _ => dflt

/-- The check timezone_data["status"] != "OK", phrased positively: a JSON
value equals the string "OK" exactly when it is that string. -/
def isJsonOK : Json → Bool
  | .str s => s == "OK"
  | _ => false

mutual

/-- Model of the Python str() conversion used by f-string interpolation of a
JSON value.  Strings pass through unchanged (the only case the claims
exercise); other cases follow the shape of the Python rendering. -/
def pyStr : Json → String
  | .null => "None"
  | .bool b => if b then "True" else "False"
  | .num q => toString q
  | .str s => s
  | .arr xs => "[" ++ pyStrList xs ++ "]"
  | .obj kvs => "\x7b" ++ pyStrPairs kvs ++ "\x7d"

/-- Comma-separated rendering of a JSON array body. -/
def pyStrList : List Json → String
  | [] => ""
  | [j] => pyStr j
  | j :: rest => pyStr j ++ ", " ++ pyStrList rest

/-- Comma-separated rendering of a JSON object body. -/
def pyStrPairs : List (String × Json) → String
  | [] => ""
  | [(k, v)] => k ++ ": " ++ pyStr v
  | (k, v) :: rest => k ++ ": " ++ pyStr v ++ ", " ++ pyStrPairs rest

end

/-- Floor of a rational as an integer (the denominator is positive, so
floor division of numerator by denominator). -/
def ratFloorZ (q : ℚ) : ℤ := Int.fdiv q.num (q.den : ℤ)

/-- Round a rational to the nearest integer, ties to even: the rounding used
by Python float formatting. -/
def roundHalfEven (q : ℚ) : ℤ :=
  if q - (ratFloorZ q : ℚ) < 1/2 then ratFloorZ q
  else if 1/2 < q - (ratFloorZ q : ℚ) then ratFloorZ q + 1
  else if ratFloorZ q % 2 = 0 then ratFloorZ q else ratFloorZ q + 1

/-- Model of Python f-string formatting with the .1f format specifier:
one digit after the decimal point, round half to even. -/
def fmt1 (q : ℚ) : String :=
  (if roundHalfEven (q * 10) < 0 then "-" else "")
    ++ toString ((roundHalfEven (q * 10)).natAbs / 10)
    ++ "." ++ toString ((roundHalfEven (q * 10)).natAbs % 10)

/-- An outbound HTTP GET request: URL and query parameters in order. -/
structure Request where
  url : String
  params : List (String × Json)

/-- Outcome of requests.get followed by raise_for_status and .json():
either some requests.exceptions.RequestException (network failure, HTTP
error status, or JSON decode failure) or a JSON body. -/
inductive FetchResult where
  | exn (msg : String) : FetchResult
  | ok (body : Json) : FetchResult

/-- The message of the missing-key branch of get_weather
(agent.py lines 18-22). -/
def weatherKeyMsg : String := "Weather API key not found in environment variables."

/-- The message of the missing-key branch of get_current_time
(agent.py lines 73-77). -/
def timezoneKeyMsg : String := "Timezone API key not found in environment variables."

/-- The message of the missing-geocoding-key branch of get_current_time
(agent.py lines 91-95). -/
def geoKeyMsg : String := "Weather API key not found in environment variables (needed for geocoding)."

/-- The RequestException handler message of get_weather
(agent.py lines 50-54). -/
def weatherFetchMsg (city m : String) : String :=
  "Error fetching weather for " ++ pyQuote ++ city ++ pyQuote ++ ": " ++ m

/-- The KeyError/IndexError handler message of get_weather
(agent.py lines 55-59). -/
def weatherParseMsg (city m : String) : String :=
  "Error parsing weather data for " ++ pyQuote ++ city ++ pyQuote ++ ": " ++ m

/-- The empty-geocode-result message of get_current_time
(agent.py lines 108-112). -/
def locationMsg (city : String) : String :=
  "Could not find location data for " ++ pyQuote ++ city ++ pyQuote ++ "."

/-- The non-OK timezone status message of get_current_time
(agent.py lines 128-132). -/
def tzStatusMsg (m : String) : String := "Error fetching timezone data: " ++ m

/-- The RequestException handler message of get_current_time
(agent.py lines 141-145). -/
def timeFetchMsg (city m : String) : String :=
  "Error fetching time data for " ++ pyQuote ++ city ++ pyQuote ++ ": " ++ m

/-- The KeyError/IndexError handler message of get_current_time
(agent.py lines 146-150). -/
def timeParseMsg (city m : String) : String :=
  "Error parsing time data for " ++ pyQuote ++ city ++ pyQuote ++ ": " ++ m

/-- The success report f-string of get_weather (agent.py lines 45-48), with
the Fahrenheit value computed as in line 40. -/
def weatherReport (city : String) (tc : ℚ) (desc : String) : String :=
  "The weather in " ++ city ++ " is " ++ desc ++ " with a temperature of "
    ++ fmt1 tc ++ " degrees Celsius (" ++ fmt1 (tc * 9 / 5 + 32)
    ++ " degrees Fahrenheit)."

/-- The success report f-string of get_current_time (agent.py line 138). -/
def timeReport (city fm zn : String) : String :=
  "The current time in " ++ city ++ " is " ++ fm ++ " (" ++ zn ++ ")"

/-- The OpenWeatherMap request issued by get_weather
(agent.py lines 25-33). -/
def weatherRequest (city key : String) : Request :=
  ⟨"https://api.openweathermap.org/data/2.5/weather",
   [("q", Json.str city), ("appid", Json.str key), ("units", Json.str "metric")]⟩

/-- The geocoding request issued by get_current_time
(agent.py lines 97-104). -/
def geocodeRequest (city wkey : String) : Request :=
  ⟨"https://api.openweathermap.org/geo/1.0/direct",
   [("q", Json.str city), ("limit", Json.num 1), ("appid", Json.str wkey)]⟩

/-- The TimeZoneDB request issued by get_current_time (agent.py lines 80-86
and 118-123): the base params dict with lat and lng added in order. -/
def timezoneRequest (tzkey : String) (lat lon : Json) : Request :=
  ⟨"https://api.timezonedb.com/v2.1/get-time-zone",
   [("key", Json.str tzkey), ("format", Json.str "json"),
    ("by", Json.str "position"), ("fields", Json.str "zoneName,formatted"),
    ("lat", lat), ("lng", lon)]⟩

/-- The body of the try block of get_weather after a successful fetch
(agent.py lines 39-49): extract temp, compute Fahrenheit, extract the
description, build the success report.  An error is a raised Python
exception. -/
def weatherParseCore (city : String) (data : Json) : Except PyErr String :=
  match jGet data "main" with
  | .error a => .error a
  | .ok mainObj =>
    match jGet mainObj "temp" with
    | .error a => .error a
    | .ok tempJ =>
      match asNum tempJ with
      | .error a => .error a
      | .ok temp_c =>
        match jGet data "weather" with
        | .error a => .error a
        | .ok weatherArr =>
          match jIdx weatherArr 0 with
          | .error a => .error a
          | .ok w0 =>
            match jGet w0 "description" with
            | .error a => .error a
            | .ok descJ => .ok (weatherReport city temp_c (pyStr descJ))

/-- The except clauses of get_weather applied to the parse outcome
(agent.py lines 50-59): KeyError and IndexError are converted into the
parsing error envelope; any other exception propagates. -/
def weatherHandle (city : String) (data : Json) : Except PyErr Dict :=
  match weatherParseCore city data with
  | .ok r => .ok (okDict r)
  | .error (.keyError s) => .ok (errDict (weatherParseMsg city s))
  | .error .indexError => .ok (errDict (weatherParseMsg city "list index out of range"))
  | .error a => .error a

/-- Shallow embedding of get_weather (agent.py lines 7-59).  Returns the
dict produced (or an uncaught exception) together with the HTTP requests
performed. -/
def getWeather (city : String) (env : String → Option String)
    (net : Request → FetchResult) : Except PyErr Dict × List Request :=
  if isFalsy (env "WEATHER_API_KEY") then
    (Except.ok (errDict weatherKeyMsg), [])
  else
    match net (weatherRequest city ((env "WEATHER_API_KEY").getD "")) with
    | .exn m =>
      (Except.ok (errDict (weatherFetchMsg city m)),
       [weatherRequest city ((env "WEATHER_API_KEY").getD "")])
    | .ok data =>
      (weatherHandle city data,
       [weatherRequest city ((env "WEATHER_API_KEY").getD "")])

/-- The timezone-response handling of get_current_time
(agent.py lines 126-139): reject a non-OK status with the message field of
the response, otherwise build the success report from formatted and
zoneName. -/
def timeParse (city : String) (tz : Json) : Except PyErr Dict :=
  match jGet tz "status" with
  | .error a => .error a
  | .ok st =>
    if isJsonOK st then
      match jGet tz "formatted" with
      | .error a => .error a
      | .ok fm =>
        match jGet tz "zoneName" with
        | .error a => .error a
        | .ok zn => .ok (okDict (timeReport city (pyStr fm) (pyStr zn)))
    else
      .ok (errDict (tzStatusMsg (pyStr (jGetD tz "message" (Json.str "Unknown error")))))

/-- The geocoding-and-timezone sequence inside the try block of
get_current_time (agent.py lines 97-139), given both keys are present. -/
def timeGeo (city : String) (net : Request → FetchResult)
    (tzkey wkey : String) : Except PyErr Dict × List Request :=
  match net (geocodeRequest city wkey) with
  | .exn m => (Except.error (PyErr.requestException m), [geocodeRequest city wkey])
  | .ok geocode_data =>
    if jFalsy geocode_data then
      (Except.ok (errDict (locationMsg city)), [geocodeRequest city wkey])
    else
      match jIdx geocode_data 0 with
      | .error a => (Except.error a, [geocodeRequest city wkey])
      | .ok g0 =>
        match jGet g0 "lat" with
        | .error a => (Except.error a, [geocodeRequest city wkey])
        | .ok lat =>
          match jGet g0 "lon" with
          | .error a => (Except.error a, [geocodeRequest city wkey])
          | .ok lon =>
            match net (timezoneRequest tzkey lat lon) with
            | .exn m =>
              (Except.error (PyErr.requestException m),
               [geocodeRequest city wkey, timezoneRequest tzkey lat lon])
            | .ok timezone_data =>
              (timeParse city timezone_data,
               [geocodeRequest city wkey, timezoneRequest tzkey lat lon])

/-- The try block of get_current_time (agent.py lines 88-139): the
geocoding-key check followed by the geocoding/timezone sequence. -/
def timeBody (city : String) (env : String → Option String)
    (net : Request → FetchResult) (tzkey : String) :
    Except PyErr Dict × List Request :=
  if isFalsy (env "WEATHER_API_KEY") then
    (Except.ok (errDict geoKeyMsg), [])
  else
    timeGeo city net tzkey ((env "WEATHER_API_KEY").getD "")

/-- The except clauses of get_current_time (agent.py lines 141-150):
RequestException becomes the fetch error envelope, KeyError and IndexError
the parse error envelope; anything else propagates. -/
def timeCatch (city : String) (r : Except PyErr Dict) : Except PyErr Dict :=
  match r with
  | .error (.requestException m) => .ok (errDict (timeFetchMsg city m))
  | .error (.keyError s) => .ok (errDict (timeParseMsg city s))
  | .error .indexError => .ok (errDict (timeParseMsg city "list index out of range"))
  | other => other

/-- Shallow embedding of get_current_time (agent.py lines 62-150). -/
def getCurrentTime (city : String) (env : String → Option String)
    (net : Request → FetchResult) : Except PyErr Dict × List Request :=
  if isFalsy (env "TIMEZONE_API_KEY") then
    (Except.ok (errDict timezoneKeyMsg), [])
  else
    (timeCatch city (timeBody city env net ((env "TIMEZONE_API_KEY").getD "")).1,
     (timeBody city env net ((env "TIMEZONE_API_KEY").getD "")).2)

/-- Substring containment: the characters of t occur contiguously in s. -/
def strContains (s t : String) : Prop := t.data <:+: s.data

/-- The Result Envelope invariant over a returned dict: status is success or
error, and exactly one of report / error_message is present, gated by
status. -/
def EnvelopeOK (d : Dict) : Prop :=
  (d.lookup "status" = some "success" ∨ d.lookup "status" = some "error")
  ∧ (d.lookup "status" = some "success" →
      (∃ r, d.lookup "report" = some r) ∧ d.lookup "error_message" = none)
  ∧ (d.lookup "status" = some "error" →
      (∃ m, d.lookup "error_message" = some m) ∧ d.lookup "report" = none)

/-- The ten single-digit strings. -/
def digitStrings : List String := ["0", "1", "2", "3", "4", "5", "6", "7", "8", "9"]

/-- A string rendered with exactly one decimal place: some text, a dot, and a
single final digit. -/
def oneDecimal (s : String) : Prop := ∃ a d, s = a ++ "." ++ d ∧ d ∈ digitStrings

/-- Modelled from the spec: the Tool descriptor of section 3 and 4.1 (the
module defining it is imported by cli.py but absent from src/): a name, a
description and a callable from named arguments to a Result Envelope dict,
where an error on the Lean side models a raised Python exception with the
given message. -/
structure Tool where
  name : String
  description : String
  function : List (String × String) → Except String Dict

/-- Modelled from the spec, section 4.1: invoke never lets an exception
escape; a failure of the underlying function is converted into an error
envelope whose message includes the tool name and the failure reason. -/
def Tool.invoke (t : Tool) (args : List (String × String)) : Dict :=
  match t.function args with
  | .ok d => d
  | .error reason =>
    errDict ("Error executing tool " ++ pyQuote ++ t.name ++ pyQuote ++ ": " ++ reason)

/-- Modelled from the spec, section 7: the registration-collision error of
the fail-loud policy. -/
structure DuplicateToolError where
  name : String

/-- Modelled from the spec, section 7: the lookup-miss error. -/
structure ToolNotFoundError where
  name : String
deriving DecidableEq

/-- Modelled from the spec, section 3: the Registry is a catalog mapping
tool names to Tools, in insertion order. -/
structure Registry where
  tools : List (String × Tool)

/-- The empty Registry, the initial process-wide state. -/
def Registry.empty : Registry := ⟨[]⟩

/-- Modelled from the spec, section 4.2, with the recommended fail-loud
duplicate policy: registering an already-present name fails with
DuplicateToolError, otherwise the tool is appended to the catalog. -/
def Registry.register (r : Registry) (t : Tool) : Except DuplicateToolError Registry :=
  match r.tools.lookup t.name with
  | some _ => .error ⟨t.name⟩
  | none => .ok ⟨r.tools ++ [(t.name, t)]⟩

/-- Modelled from the spec, section 4.2: lookup fails with ToolNotFoundError
when the name is absent. -/
def Registry.lookup (r : Registry) (n : String) : Except ToolNotFoundError Tool :=
  match r.tools.lookup n with
  | some t => .ok t
  | none => .error ⟨n⟩

/-- Register a list of tools in order, starting from a given registry,
failing loudly on the first duplicate. -/
def registerFrom (r : Registry) : List Tool → Except DuplicateToolError Registry
  | [] => .ok r
  | t :: rest =>
    match r.register t with
    | .error a => .error a
    | .ok r1 => registerFrom r1 rest

/-- Modelled from the spec, section 3: the Dispatch Outcome record. -/
structure DispatchOutcome where
  task : String
  status : String
  tools_used : List String
  result : String
deriving DecidableEq

/-- Modelled from the spec, section 4.3, steps 2-5, with the recommended
abort-on-first-failure policy: invoke each selected tool in order; on the
first error envelope stop and surface its error_message as the result; if
all succeed, the result is the collected reports (or the direct answer of a
zero-tool selection). -/
def dispatchGo (task direct : String) :
    List (Tool × List (String × String)) → List String → List String → DispatchOutcome
  | [], used, reports =>
    ⟨task, "success", used.reverse,
     if reports.isEmpty then direct else String.intercalate " " reports.reverse⟩
  | (t, args) :: rest, used, reports =>
    if (t.invoke args).lookup "status" = some "error" then
      ⟨task, "error", (t.name :: used).reverse,
       ((t.invoke args).lookup "error_message").getD ""⟩
    else
      dispatchGo task direct rest (t.name :: used)
        ((((t.invoke args).lookup "report").getD "") :: reports)

/-- Modelled from the spec, section 4.3: run one task given the selection
returned by the external decision process (the chosen tools with their
arguments, and the direct answer used when no tool is selected). -/
def dispatchRun (task direct : String)
    (sel : List (Tool × List (String × String))) : DispatchOutcome :=
  dispatchGo task direct sel [] []

/-- One event of an interactive session: a line entered at the prompt, or a
KeyboardInterrupt while waiting for input. -/
inductive ReplEvent where
  | line (s : String) : ReplEvent
  | interrupt : ReplEvent

/-- One observable action of a loop iteration that continues: listing the
tools, or running the entered task (cli.py lines 156-171; exceptions from
the run are caught at line 175 and the loop continues). -/
inductive ReplAction where
  | listTools : ReplAction
  | runTask (task : String) : ReplAction
deriving DecidableEq

/-- Whether an event terminates the interactive loop of cli.py main
(lines 151-176): a line whose lowercasing is exit or quit breaks at line
155, a KeyboardInterrupt breaks at line 174. -/
def replStops : ReplEvent → Bool
  | .line s => s.toLower == "exit" || s.toLower == "quit"
  | .interrupt => true

/-- Embedding of the interactive loop of cli.py main (lines 151-176) over a
finite stream of input events: returns the actions performed and whether
the loop terminated within the stream. -/
def replRun : List ReplEvent → List ReplAction × Bool
  | [] => ([], false)
  | .interrupt :: _ => ([], true)
  | .line s :: rest =>
    if s.toLower == "exit" || s.toLower == "quit" then ([], true)
    else if s.toLower == "tools" then
      (ReplAction.listTools :: (replRun rest).1, (replRun rest).2)
    else
      (ReplAction.runTask s :: (replRun rest).1, (replRun rest).2)

/-- The action a non-terminating line produces. -/
def replAction (s : String) : ReplAction :=
  if s.toLower == "tools" then .listTools else .runTask s

/-- The actions the loop performs on a stream of events that all continue
the loop (interrupts cannot occur here; the function is total anyway). -/
def lineActions : List ReplEvent → List ReplAction
  | [] => []
  | .line s :: rest => replAction s :: lineActions rest
  | .interrupt :: rest => lineActions rest

/-- The three top-level modes of cli.py main (lines 122-150). -/
inductive CliMode where
  | listTools : CliMode
  | single (task : String) : CliMode
  | interactive : CliMode
deriving DecidableEq

/-- Embedding of the mode selection of cli.py main: the list-tools flag is
checked first (line 123), then truthiness of the optional task argument
(line 134) selects single-task mode, otherwise interactive mode
(line 145). -/
def mainMode (list_tools : Bool) (task : Option String) : CliMode :=
  if list_tools then .listTools
  else
    match task with
    | some t => if t.isEmpty then .interactive else .single t
    | none => .interactive

/-- Substring containment is decidable (characters with decidable equality). -/
instance strContainsDec (s t : String) : Decidable (strContains s t) :=
  List.decidableInfix t.data s.data

/-- The enumeration of root-cause error messages of get_weather: the three
failure descriptions the function can produce. -/
def weatherRootCause (city m : String) : Prop :=
  m = weatherKeyMsg ∨ (∃ x, m = weatherFetchMsg city x) ∨ (∃ x, m = weatherParseMsg city x)

/-- The enumeration of root-cause error messages of get_current_time: the six
failure descriptions the function can produce. -/
def timeRootCause (city m : String) : Prop :=
  m = timezoneKeyMsg ∨ m = geoKeyMsg ∨ m = locationMsg city ∨
  (∃ x, m = tzStatusMsg x) ∨ (∃ x, m = timeFetchMsg city x) ∨
  (∃ x, m = timeParseMsg city x)

/-- Concrete environment with no variables set, used by witnesses. -/
def envNone : String → Option String := fun _ => none

/-- Concrete environment with only the timezone key set. -/
def envTzOnly : String → Option String :=
  fun k => if k = "TIMEZONE_API_KEY" then some "tz-key" else none

/-- Concrete environment with both API keys set. -/
def envBoth : String → Option String :=
  fun k =>
    if k = "WEATHER_API_KEY" then some "w-key"
    else if k = "TIMEZONE_API_KEY" then some "tz-key" else none

/-- Concrete network oracle in which every request fails. -/
def netDown : Request → FetchResult := fun _ => FetchResult.exn "connection refused"

/-- A concrete OpenWeatherMap response body: 18 degrees, clear sky. -/
def weatherBody : Json :=
  Json.obj [("main", Json.obj [("temp", Json.num 18)]),
            ("weather", Json.arr [Json.obj [("description", Json.str "clear sky")]])]

/-- Concrete network oracle returning the weather body for every request. -/
def netWeather : Request → FetchResult := fun _ => FetchResult.ok weatherBody

/-- A concrete tool whose underlying function always raises. -/
def failingTool : Tool :=
  ⟨"get_weather", "Retrieves the current weather report for a specified city.",
   fun _ => Except.error "boom"⟩

/-- A concrete tool that always succeeds with a fixed report. -/
def okTool : Tool :=
  ⟨"get_current_time", "Returns the current time in a specified city.",
   fun _ => Except.ok (okDict "The current time in Paris is 12:00 (Europe/Paris)")⟩

/-- A concrete registry holding the two demo tools, used by witnesses. -/
def demoRegistry : Registry :=
  ⟨[("get_weather", failingTool), ("get_current_time", okTool)]⟩

theorem errDict_status (m : String) : (errDict m).lookup "status" = some "error" := rfl

theorem errDict_msg (m : String) : (errDict m).lookup "error_message" = some m := rfl

theorem errDict_report (m : String) : (errDict m).lookup "report" = none := rfl

theorem okDict_status (r : String) : (okDict r).lookup "status" = some "success" := rfl

theorem okDict_report (r : String) : (okDict r).lookup "report" = some r := rfl

theorem okDict_msg (r : String) : (okDict r).lookup "error_message" = none := rfl

theorem envelopeOK_err (m : String) : EnvelopeOK (errDict m) := by
  refine ⟨Or.inr (errDict_status m), fun h => ?_,
    fun _ => ⟨⟨m, errDict_msg m⟩, errDict_report m⟩⟩
  rw [errDict_status m] at h
  exact absurd h (by simp)

theorem envelopeOK_ok (r : String) : EnvelopeOK (okDict r) := by
  refine ⟨Or.inl (okDict_status r), fun _ => ⟨⟨r, okDict_report r⟩, okDict_msg r⟩,
    fun h => ?_⟩
  rw [okDict_status r] at h
  exact absurd h (by simp)

theorem strContains_refl (s : String) : strContains s s := ⟨[], [], by simp⟩

theorem strContains_left (u s t : String) (h : strContains s t) :
    strContains (u ++ s) t := by
  obtain ⟨a, b, hab⟩ := h
  exact ⟨u.data ++ a, b, by rw [String.data_append, ← hab]; simp⟩

theorem strContains_right (s t u : String) (h : strContains s t) :
    strContains (s ++ u) t := by
  obtain ⟨a, b, hab⟩ := h
  exact ⟨a, b ++ u.data, by rw [String.data_append, ← hab]; simp⟩

theorem weatherParseCore_ok (city : String) (data : Json) (r : String)
    (h : weatherParseCore city data = Except.ok r) :
    ∃ tc desc, r = weatherReport city tc desc := by
  unfold weatherParseCore at h
  cases h1 : jGet data "main" with
  | error a => rw [h1] at h; exact absurd h (by simp)
  | ok mainObj =>
  rw [h1] at h
  dsimp only at h
  cases h2 : jGet mainObj "temp" with
  | error a => rw [h2] at h; exact absurd h (by simp)
  | ok tempJ =>
  rw [h2] at h
  dsimp only at h
  cases h3 : asNum tempJ with
  | error a => rw [h3] at h; exact absurd h (by simp)
  | ok temp_c =>
  rw [h3] at h
  dsimp only at h
  cases h4 : jGet data "weather" with
  | error a => rw [h4] at h; exact absurd h (by simp)
  | ok weatherArr =>
  rw [h4] at h
  dsimp only at h
  cases h5 : jIdx weatherArr 0 with
  | error a => rw [h5] at h; exact absurd h (by simp)
  | ok w0 =>
  rw [h5] at h
  dsimp only at h
  cases h6 : jGet w0 "description" with
  | error a => rw [h6] at h; exact absurd h (by simp)
  | ok descJ =>
  rw [h6] at h
  dsimp only at h
  exact ⟨temp_c, pyStr descJ, (Except.ok.inj h).symm⟩

theorem weatherHandle_shape (city : String) (data : Json) :
    (∃ tc desc, weatherHandle city data = Except.ok (okDict (weatherReport city tc desc))) ∨
    (∃ m, weatherHandle city data = Except.ok (errDict (weatherParseMsg city m))) ∨
    (∃ a, weatherHandle city data = Except.error a) := by
  unfold weatherHandle
  split
  · rename_i r hr
    obtain ⟨tc, desc, hd⟩ := weatherParseCore_ok city data r hr
    exact Or.inl ⟨tc, desc, by rw [hd]⟩
  · exact Or.inr (Or.inl ⟨_, rfl⟩)
  · exact Or.inr (Or.inl ⟨_, rfl⟩)
  · exact Or.inr (Or.inr ⟨_, rfl⟩)

theorem getWeather_shape (city : String) (env : String → Option String)
    (net : Request → FetchResult) :
    (getWeather city env net).1 = Except.ok (errDict weatherKeyMsg) ∨
    (∃ m, (getWeather city env net).1 = Except.ok (errDict (weatherFetchMsg city m))) ∨
    (∃ m, (getWeather city env net).1 = Except.ok (errDict (weatherParseMsg city m))) ∨
    (∃ tc desc, (getWeather city env net).1 = Except.ok (okDict (weatherReport city tc desc))) ∨
    (∃ a, (getWeather city env net).1 = Except.error a) := by
  unfold getWeather
  split
  · exact Or.inl rfl
  · split
    · exact Or.inr (Or.inl ⟨_, rfl⟩)
    · rename_i data heq
      rcases weatherHandle_shape city data with ⟨tc, desc, h⟩ | ⟨m, h⟩ | ⟨a, h⟩
      · exact Or.inr (Or.inr (Or.inr (Or.inl ⟨tc, desc, h⟩)))
      · exact Or.inr (Or.inr (Or.inl ⟨m, h⟩))
      · exact Or.inr (Or.inr (Or.inr (Or.inr ⟨a, h⟩)))

theorem timeParse_shape (city : String) (tz : Json) :
    (∃ m, timeParse city tz = Except.ok (errDict (tzStatusMsg m))) ∨
    (∃ fm zn, timeParse city tz = Except.ok (okDict (timeReport city fm zn))) ∨
    (∃ a, timeParse city tz = Except.error a) := by
  unfold timeParse
  split
  · exact Or.inr (Or.inr ⟨_, rfl⟩)
  · split
    · split
      · exact Or.inr (Or.inr ⟨_, rfl⟩)
      · split
        · exact Or.inr (Or.inr ⟨_, rfl⟩)
        · exact Or.inr (Or.inl ⟨_, _, rfl⟩)
    · exact Or.inl ⟨_, rfl⟩

theorem timeGeo_shape (city : String) (net : Request → FetchResult)
    (tzkey wkey : String) :
    (timeGeo city net tzkey wkey).1 = Except.ok (errDict (locationMsg city)) ∨
    (∃ m, (timeGeo city net tzkey wkey).1 = Except.ok (errDict (tzStatusMsg m))) ∨
    (∃ fm zn, (timeGeo city net tzkey wkey).1 = Except.ok (okDict (timeReport city fm zn))) ∨
    (∃ a, (timeGeo city net tzkey wkey).1 = Except.error a) := by
  unfold timeGeo
  split
  · exact Or.inr (Or.inr (Or.inr ⟨_, rfl⟩))
  · rename_i geocode_data heq
    split
    · exact Or.inl rfl
    · split
      · exact Or.inr (Or.inr (Or.inr ⟨_, rfl⟩))
      · split
        · exact Or.inr (Or.inr (Or.inr ⟨_, rfl⟩))
        · split
          · exact Or.inr (Or.inr (Or.inr ⟨_, rfl⟩))
          · split
            · exact Or.inr (Or.inr (Or.inr ⟨_, rfl⟩))
            · rename_i timezone_data heq2
              rcases timeParse_shape city timezone_data with ⟨m, h⟩ | ⟨fm, zn, h⟩ | ⟨a, h⟩
              · exact Or.inr (Or.inl ⟨m, h⟩)
              · exact Or.inr (Or.inr (Or.inl ⟨fm, zn, h⟩))
              · exact Or.inr (Or.inr (Or.inr ⟨a, h⟩))

theorem timeBody_shape (city : String) (env : String → Option String)
    (net : Request → FetchResult) (tzkey : String) :
    (timeBody city env net tzkey).1 = Except.ok (errDict geoKeyMsg) ∨
    (timeBody city env net tzkey).1 = Except.ok (errDict (locationMsg city)) ∨
    (∃ m, (timeBody city env net tzkey).1 = Except.ok (errDict (tzStatusMsg m))) ∨
    (∃ fm zn, (timeBody city env net tzkey).1 = Except.ok (okDict (timeReport city fm zn))) ∨
    (∃ a, (timeBody city env net tzkey).1 = Except.error a) := by
  unfold timeBody
  split
  · exact Or.inl rfl
  · rcases timeGeo_shape city net tzkey ((env "WEATHER_API_KEY").getD "") with
      h | ⟨m, h⟩ | ⟨fm, zn, h⟩ | ⟨a, h⟩
    · exact Or.inr (Or.inl h)
    · exact Or.inr (Or.inr (Or.inl ⟨m, h⟩))
    · exact Or.inr (Or.inr (Or.inr (Or.inl ⟨fm, zn, h⟩)))
    · exact Or.inr (Or.inr (Or.inr (Or.inr ⟨a, h⟩)))

theorem timeCatch_ok (city : String) (d : Dict) :
    timeCatch city (Except.ok d) = Except.ok d := rfl

theorem getCurrentTime_shape (city : String) (env : String → Option String)
    (net : Request → FetchResult) :
    (getCurrentTime city env net).1 = Except.ok (errDict timezoneKeyMsg) ∨
    (getCurrentTime city env net).1 = Except.ok (errDict geoKeyMsg) ∨
    (getCurrentTime city env net).1 = Except.ok (errDict (locationMsg city)) ∨
    (∃ m, (getCurrentTime city env net).1 = Except.ok (errDict (tzStatusMsg m))) ∨
    (∃ m, (getCurrentTime city env net).1 = Except.ok (errDict (timeFetchMsg city m))) ∨
    (∃ m, (getCurrentTime city env net).1 = Except.ok (errDict (timeParseMsg city m))) ∨
    (∃ fm zn, (getCurrentTime city env net).1 = Except.ok (okDict (timeReport city fm zn))) ∨
    (getCurrentTime city env net).1 = Except.error PyErr.typeError := by
  unfold getCurrentTime
  split
  · exact Or.inl rfl
  · rcases timeBody_shape city env net ((env "TIMEZONE_API_KEY").getD "") with
      h | h | ⟨m, h⟩ | ⟨fm, zn, h⟩ | ⟨a, h⟩
    · rw [h, timeCatch_ok]
      exact Or.inr (Or.inl rfl)
    · rw [h, timeCatch_ok]
      exact Or.inr (Or.inr (Or.inl rfl))
    · rw [h, timeCatch_ok]
      exact Or.inr (Or.inr (Or.inr (Or.inl ⟨m, rfl⟩)))
    · rw [h, timeCatch_ok]
      exact Or.inr (Or.inr (Or.inr (Or.inr (Or.inr (Or.inr (Or.inl ⟨fm, zn, rfl⟩))))))
    · rw [h]
      cases a with
      | requestException m =>
        exact Or.inr (Or.inr (Or.inr (Or.inr (Or.inl ⟨m, rfl⟩))))
      | keyError s =>
        exact Or.inr (Or.inr (Or.inr (Or.inr (Or.inr (Or.inl ⟨s, rfl⟩)))))
      | indexError =>
        exact Or.inr (Or.inr (Or.inr (Or.inr (Or.inr (Or.inl ⟨_, rfl⟩)))))
      | typeError =>
        exact Or.inr (Or.inr (Or.inr (Or.inr (Or.inr (Or.inr (Or.inr rfl))))))

theorem length_append_pos (a b : String) (h : 0 < a.length) : 0 < (a ++ b).length := by
  rw [String.length_append]
  omega

theorem toString_digit_mem (m : Nat) (h : m < 10) : toString m ∈ digitStrings := by
  interval_cases m <;> decide

theorem fmt1_oneDecimal (q : ℚ) : oneDecimal (fmt1 q) := by
  refine ⟨(if roundHalfEven (q * 10) < 0 then "-" else "")
      ++ toString ((roundHalfEven (q * 10)).natAbs / 10),
    toString ((roundHalfEven (q * 10)).natAbs % 10), rfl, ?_⟩
  exact toString_digit_mem _ (Nat.mod_lt _ (by norm_num))

theorem lookup_append_some (l1 l2 : List (String × Tool)) (n : String) (t : Tool)
    (h : l1.lookup n = some t) : (l1 ++ l2).lookup n = some t := by
  induction l1 with
  | nil => simp [List.lookup_nil] at h
  | cons hd tl ih =>
    obtain ⟨k, v⟩ := hd
    cases hnk : (n == k) with
    | true =>
      simp only [List.lookup_cons, hnk] at h
      simp only [List.cons_append, List.lookup_cons, hnk]
      exact h
    | false =>
      simp only [List.lookup_cons, hnk] at h
      simp only [List.cons_append, List.lookup_cons, hnk]
      exact ih h

theorem lookup_append_none (l1 l2 : List (String × Tool)) (n : String)
    (h : l1.lookup n = none) : (l1 ++ l2).lookup n = l2.lookup n := by
  induction l1 with
  | nil => simp
  | cons hd tl ih =>
    obtain ⟨k, v⟩ := hd
    cases hnk : (n == k) with
    | true =>
      simp only [List.lookup_cons, hnk] at h
      exact absurd h (by simp)
    | false =>
      simp only [List.lookup_cons, hnk] at h
      simp only [List.cons_append, List.lookup_cons, hnk]
      exact ih h

theorem registerFrom_preserves (ts : List Tool) (r0 r : Registry) (n : String) (t : Tool)
    (hreg : registerFrom r0 ts = Except.ok r) (h : r0.tools.lookup n = some t) :
    r.tools.lookup n = some t := by
  induction ts generalizing r0 with
  | nil =>
    unfold registerFrom at hreg
    cases hreg
    exact h
  | cons u rest ih =>
    unfold registerFrom at hreg
    cases hu : r0.register u with
    | error a => rw [hu] at hreg; exact absurd hreg (by simp)
    | ok r1 =>
      rw [hu] at hreg
      dsimp only at hreg
      refine ih r1 hreg ?_
      unfold Registry.register at hu
      cases hdup : r0.tools.lookup u.name with
      | some _ => rw [hdup] at hu; exact absurd hu (by simp)
      | none =>
        rw [hdup] at hu
        cases hu
        exact lookup_append_some _ _ _ _ h

theorem registerFrom_absent (ts : List Tool) (r0 r : Registry) (n : String)
    (hreg : registerFrom r0 ts = Except.ok r) (h : r0.tools.lookup n = none)
    (hn : n ∉ ts.map Tool.name) : r.tools.lookup n = none := by
  induction ts generalizing r0 with
  | nil =>
    unfold registerFrom at hreg
    cases hreg
    exact h
  | cons u rest ih =>
    unfold registerFrom at hreg
    cases hu : r0.register u with
    | error a => rw [hu] at hreg; exact absurd hreg (by simp)
    | ok r1 =>
      rw [hu] at hreg
      dsimp only at hreg
      rw [List.map_cons, List.mem_cons] at hn
      push_neg at hn
      refine ih r1 hreg ?_ hn.2
      unfold Registry.register at hu
      cases hdup : r0.tools.lookup u.name with
      | some _ => rw [hdup] at hu; exact absurd hu (by simp)
      | none =>
        rw [hdup] at hu
        cases hu
        rw [lookup_append_none _ _ _ h, List.lookup_cons]
        have : (n == u.name) = false := by
          simp only [beq_eq_false_iff_ne, ne_eq]
          exact hn.1
        rw [this, List.lookup_nil]

/-- Claim C1: every dict returned by get_weather or by get_current_time, on
every branch and for every city, environment and network behaviour, has
status success or error, and exactly one of report (on success) or
error_message (on error) is present. -/
theorem claim1_result_envelope :
    (∀ (city : String) (env : String → Option String) (net : Request → FetchResult)
      (d : Dict), (getWeather city env net).1 = Except.ok d → EnvelopeOK d) ∧
    (∀ (city : String) (env : String → Option String) (net : Request → FetchResult)
      (d : Dict), (getCurrentTime city env net).1 = Except.ok d → EnvelopeOK d) := by
  constructor
  · intro city env net d hd
    rcases getWeather_shape city env net with h | ⟨m, h⟩ | ⟨m, h⟩ | ⟨tc, desc, h⟩ | ⟨a, h⟩
    · obtain rfl := Except.ok.inj (hd.symm.trans h)
      exact envelopeOK_err _
    · obtain rfl := Except.ok.inj (hd.symm.trans h)
      exact envelopeOK_err _
    · obtain rfl := Except.ok.inj (hd.symm.trans h)
      exact envelopeOK_err _
    · obtain rfl := Except.ok.inj (hd.symm.trans h)
      exact envelopeOK_ok _
    · exact absurd (hd.symm.trans h) (by simp)
  · intro city env net d hd
    rcases getCurrentTime_shape city env net with
      h | h | h | ⟨m, h⟩ | ⟨m, h⟩ | ⟨m, h⟩ | ⟨fm, zn, h⟩ | h
    · obtain rfl := Except.ok.inj (hd.symm.trans h)
      exact envelopeOK_err _
    · obtain rfl := Except.ok.inj (hd.symm.trans h)
      exact envelopeOK_err _
    · obtain rfl := Except.ok.inj (hd.symm.trans h)
      exact envelopeOK_err _
    · obtain rfl := Except.ok.inj (hd.symm.trans h)
      exact envelopeOK_err _
    · obtain rfl := Except.ok.inj (hd.symm.trans h)
      exact envelopeOK_err _
    · obtain rfl := Except.ok.inj (hd.symm.trans h)
      exact envelopeOK_err _
    · obtain rfl := Except.ok.inj (hd.symm.trans h)
      exact envelopeOK_ok _
    · exact absurd (hd.symm.trans h) (by simp)

theorem claim1_result_envelope_witness :
    EnvelopeOK (errDict weatherKeyMsg) ∧ EnvelopeOK (errDict timezoneKeyMsg) :=
  ⟨claim1_result_envelope.1 "Paris" envNone netDown (errDict weatherKeyMsg) rfl,
   claim1_result_envelope.2 "Paris" envNone netDown (errDict timezoneKeyMsg) rfl⟩

/-- Claim C3: when the required API key variable is missing (unset or empty,
which Python treats identically), each tool returns an error envelope whose
message contains "API key not found", and performs no network request. -/
theorem claim3_missing_key_no_network (city : String) (env : String → Option String)
    (net : Request → FetchResult) :
    (isFalsy (env "WEATHER_API_KEY") = true →
      getWeather city env net = (Except.ok (errDict weatherKeyMsg), []) ∧
      strContains weatherKeyMsg "API key not found") ∧
    (isFalsy (env "TIMEZONE_API_KEY") = true →
      getCurrentTime city env net = (Except.ok (errDict timezoneKeyMsg), []) ∧
      strContains timezoneKeyMsg "API key not found") := by
  constructor
  · intro h
    exact ⟨by simp [getWeather, h], by decide⟩
  · intro h
    exact ⟨by simp [getCurrentTime, h], by decide⟩

theorem claim3_missing_key_no_network_witness :
    (getWeather "Paris" envNone netDown = (Except.ok (errDict weatherKeyMsg), []) ∧
      strContains weatherKeyMsg "API key not found") ∧
    (getCurrentTime "Paris" envNone netDown = (Except.ok (errDict timezoneKeyMsg), []) ∧
      strContains timezoneKeyMsg "API key not found") :=
  ⟨(claim3_missing_key_no_network "Paris" envNone netDown).1 rfl,
   (claim3_missing_key_no_network "Paris" envNone netDown).2 rfl⟩

/-- Claim C9: when the weather API key is missing, get_current_time cannot
succeed: with the timezone key present it returns exactly the geocoding-key
error message (which mentions geocoding), and in every environment without
the weather key the returned status is error. -/
theorem claim9_time_needs_weather_key (city : String) (env : String → Option String)
    (net : Request → FetchResult) :
    (isFalsy (env "WEATHER_API_KEY") = true →
      isFalsy (env "TIMEZONE_API_KEY") = false →
      (getCurrentTime city env net).1 = Except.ok (errDict geoKeyMsg) ∧
      strContains geoKeyMsg "needed for geocoding") ∧
    (isFalsy (env "WEATHER_API_KEY") = true →
      ∀ d, (getCurrentTime city env net).1 = Except.ok d →
        d.lookup "status" = some "error") := by
  constructor
  · intro hW hT
    exact ⟨by simp [getCurrentTime, hT, timeBody, hW, timeCatch], by decide⟩
  · intro hW d hd
    cases hT : isFalsy (env "TIMEZONE_API_KEY") with
    | true =>
      simp [getCurrentTime, hT] at hd
      rw [← hd]
      exact errDict_status _
    | false =>
      simp [getCurrentTime, hT, timeBody, hW, timeCatch] at hd
      rw [← hd]
      exact errDict_status _

theorem claim9_time_needs_weather_key_witness :
    ((getCurrentTime "Paris" envTzOnly netDown).1 = Except.ok (errDict geoKeyMsg) ∧
      strContains geoKeyMsg "needed for geocoding") ∧
    (errDict geoKeyMsg).lookup "status" = some "error" :=
  ⟨(claim9_time_needs_weather_key "Paris" envTzOnly netDown).1 rfl rfl,
   (claim9_time_needs_weather_key "Paris" envTzOnly netDown).2 rfl (errDict geoKeyMsg) rfl⟩

/-- Claim C4 as stated is false on the code: the missing-key failure of
get_weather yields the fixed message Weather API key not found in environment
variables, whose text does not embed the tool name get_weather. -/
theorem claim4_counterexample :
    (getWeather "Paris" envNone netDown).1 = Except.ok (errDict weatherKeyMsg) ∧
    (errDict weatherKeyMsg).lookup "status" = some "error" ∧
    (errDict weatherKeyMsg).lookup "error_message" = some weatherKeyMsg ∧
    ¬ strContains weatherKeyMsg "get_weather" :=
  ⟨rfl, rfl, rfl, by decide⟩

/-- Claim C4 amended: every failing execution of get_weather or
get_current_time returns a non-empty error_message that describes the root
cause of the failure (naming the failed step, with the city where
applicable), though it does not embed the tool function name itself. -/
theorem claim4_amended_root_cause :
    (∀ (city : String) (env : String → Option String) (net : Request → FetchResult)
      (d : Dict), (getWeather city env net).1 = Except.ok d →
      d.lookup "status" = some "error" →
      ∃ m, d.lookup "error_message" = some m ∧ 0 < m.length ∧ weatherRootCause city m) ∧
    (∀ (city : String) (env : String → Option String) (net : Request → FetchResult)
      (d : Dict), (getCurrentTime city env net).1 = Except.ok d →
      d.lookup "status" = some "error" →
      ∃ m, d.lookup "error_message" = some m ∧ 0 < m.length ∧ timeRootCause city m) := by
  constructor
  · intro city env net d hd hstatus
    rcases getWeather_shape city env net with h | ⟨m, h⟩ | ⟨m, h⟩ | ⟨tc, desc, h⟩ | ⟨a, h⟩
    · obtain rfl := Except.ok.inj (hd.symm.trans h)
      exact ⟨_, errDict_msg _, by decide, Or.inl rfl⟩
    · obtain rfl := Except.ok.inj (hd.symm.trans h)
      refine ⟨_, errDict_msg _, ?_, Or.inr (Or.inl ⟨m, rfl⟩)⟩
      exact length_append_pos _ _ (length_append_pos _ _ (length_append_pos _ _
        (length_append_pos _ _ (by decide))))
    · obtain rfl := Except.ok.inj (hd.symm.trans h)
      refine ⟨_, errDict_msg _, ?_, Or.inr (Or.inr ⟨m, rfl⟩)⟩
      exact length_append_pos _ _ (length_append_pos _ _ (length_append_pos _ _
        (length_append_pos _ _ (by decide))))
    · obtain rfl := Except.ok.inj (hd.symm.trans h)
      rw [okDict_status] at hstatus
      exact absurd hstatus (by simp)
    · exact absurd (hd.symm.trans h) (by simp)
  · intro city env net d hd hstatus
    rcases getCurrentTime_shape city env net with
      h | h | h | ⟨m, h⟩ | ⟨m, h⟩ | ⟨m, h⟩ | ⟨fm, zn, h⟩ | h
    · obtain rfl := Except.ok.inj (hd.symm.trans h)
      exact ⟨_, errDict_msg _, by decide, Or.inl rfl⟩
    · obtain rfl := Except.ok.inj (hd.symm.trans h)
      exact ⟨_, errDict_msg _, by decide, Or.inr (Or.inl rfl)⟩
    · obtain rfl := Except.ok.inj (hd.symm.trans h)
      refine ⟨_, errDict_msg _, ?_, Or.inr (Or.inr (Or.inl rfl))⟩
      exact length_append_pos _ _ (length_append_pos _ _ (length_append_pos _ _ (by decide)))
    · obtain rfl := Except.ok.inj (hd.symm.trans h)
      refine ⟨_, errDict_msg _, ?_, Or.inr (Or.inr (Or.inr (Or.inl ⟨m, rfl⟩)))⟩
      exact length_append_pos _ _ (by decide)
    · obtain rfl := Except.ok.inj (hd.symm.trans h)
      refine ⟨_, errDict_msg _, ?_, Or.inr (Or.inr (Or.inr (Or.inr (Or.inl ⟨m, rfl⟩))))⟩
      exact length_append_pos _ _ (length_append_pos _ _ (length_append_pos _ _
        (length_append_pos _ _ (by decide))))
    · obtain rfl := Except.ok.inj (hd.symm.trans h)
      refine ⟨_, errDict_msg _, ?_,
        Or.inr (Or.inr (Or.inr (Or.inr (Or.inr ⟨m, rfl⟩))))⟩
      exact length_append_pos _ _ (length_append_pos _ _ (length_append_pos _ _
        (length_append_pos _ _ (by decide))))
    · obtain rfl := Except.ok.inj (hd.symm.trans h)
      rw [okDict_status] at hstatus
      exact absurd hstatus (by simp)
    · exact absurd (hd.symm.trans h) (by simp)

theorem claim4_amended_root_cause_witness :
    ∃ m, (errDict weatherKeyMsg).lookup "error_message" = some m ∧
      0 < m.length ∧ weatherRootCause "Paris" m :=
  claim4_amended_root_cause.1 "Paris" envNone netDown (errDict weatherKeyMsg) rfl rfl

/-- Claim C10: every report of a successful get_weather result is the weather
report string, which contains the Celsius temperature and the Fahrenheit
temperature computed as temp_c * 9/5 + 32, each rendered with exactly one
decimal place. -/
theorem claim10_report_temperatures (city : String) (env : String → Option String)
    (net : Request → FetchResult) (d : Dict) (r : String)
    (hd : (getWeather city env net).1 = Except.ok d)
    (hr : d.lookup "report" = some r) :
    ∃ tc desc, r = weatherReport city tc desc ∧
      strContains r (fmt1 tc) ∧ strContains r (fmt1 (tc * 9 / 5 + 32)) ∧
      oneDecimal (fmt1 tc) ∧ oneDecimal (fmt1 (tc * 9 / 5 + 32)) := by
  rcases getWeather_shape city env net with h | ⟨m, h⟩ | ⟨m, h⟩ | ⟨tc, desc, h⟩ | ⟨a, h⟩
  · obtain rfl := Except.ok.inj (hd.symm.trans h)
    rw [errDict_report] at hr
    exact absurd hr (by simp)
  · obtain rfl := Except.ok.inj (hd.symm.trans h)
    rw [errDict_report] at hr
    exact absurd hr (by simp)
  · obtain rfl := Except.ok.inj (hd.symm.trans h)
    rw [errDict_report] at hr
    exact absurd hr (by simp)
  · obtain rfl := Except.ok.inj (hd.symm.trans h)
    rw [okDict_report] at hr
    obtain rfl := Option.some.inj hr
    refine ⟨tc, desc, rfl, ?_, ?_, fmt1_oneDecimal _, fmt1_oneDecimal _⟩
    · unfold weatherReport
      exact strContains_right _ _ _ (strContains_right _ _ _ (strContains_right _ _ _
        (strContains_left _ _ _ (strContains_refl _))))
    · unfold weatherReport
      exact strContains_right _ _ _ (strContains_left _ _ _ (strContains_refl _))
  · exact absurd (hd.symm.trans h) (by simp)

theorem claim10_report_temperatures_witness :
    ∃ tc desc, weatherReport "Paris" 18 "clear sky" = weatherReport "Paris" tc desc ∧
      strContains (weatherReport "Paris" 18 "clear sky") (fmt1 tc) ∧
      strContains (weatherReport "Paris" 18 "clear sky") (fmt1 (tc * 9 / 5 + 32)) ∧
      oneDecimal (fmt1 tc) ∧ oneDecimal (fmt1 (tc * 9 / 5 + 32)) :=
  claim10_report_temperatures "Paris" envBoth netWeather
    (okDict (weatherReport "Paris" 18 "clear sky")) (weatherReport "Paris" 18 "clear sky")
    rfl rfl

/-- Claim C2 (spec-modelled): for every tool whose underlying function
raises, invoke does not propagate the exception but returns an error
envelope with a non-empty error_message containing the tool name. -/
theorem claim2_invoke_never_raises (t : Tool) (args : List (String × String))
    (reason : String) (h : t.function args = Except.error reason) :
    (t.invoke args).lookup "status" = some "error" ∧
    ∃ m, (t.invoke args).lookup "error_message" = some m ∧ 0 < m.length ∧
      strContains m t.name := by
  unfold Tool.invoke
  rw [h]
  dsimp only
  refine ⟨errDict_status _, _, errDict_msg _, ?_, ?_⟩
  · exact length_append_pos _ _ (length_append_pos _ _ (length_append_pos _ _
      (length_append_pos _ _ (by decide))))
  · exact strContains_right _ _ _ (strContains_right _ _ _ (strContains_right _ _ _
      (strContains_left _ _ _ (strContains_refl _))))

theorem claim2_invoke_never_raises_witness :
    (failingTool.invoke []).lookup "status" = some "error" ∧
    ∃ m, (failingTool.invoke []).lookup "error_message" = some m ∧ 0 < m.length ∧
      strContains m failingTool.name :=
  claim2_invoke_never_raises failingTool [] "boom" rfl

theorem registerFrom_mem (ts : List Tool) (r0 r : Registry) (t : Tool)
    (hreg : registerFrom r0 ts = Except.ok r) (ht : t ∈ ts) :
    r.tools.lookup t.name = some t := by
  induction ts generalizing r0 with
  | nil => cases ht
  | cons u rest ih =>
    unfold registerFrom at hreg
    cases hu : r0.register u with
    | error a => rw [hu] at hreg; exact absurd hreg (by simp)
    | ok r1 =>
      rw [hu] at hreg
      dsimp only at hreg
      rcases List.mem_cons.mp ht with rfl | hmem
      · refine registerFrom_preserves rest r1 r t.name t hreg ?_
        unfold Registry.register at hu
        cases hdup : r0.tools.lookup t.name with
        | some _ => rw [hdup] at hu; exact absurd hu (by simp)
        | none =>
          rw [hdup] at hu
          cases hu
          rw [lookup_append_none _ _ _ hdup]
          simp [List.lookup_cons]
      · exact ih r1 hreg hmem

/-- Claim C5 (spec-modelled): in a registry built by registering a list of
tools under the fail-loud policy, every registered tool is returned
unchanged when its name is looked up. -/
theorem claim5_register_lookup_roundtrip (ts : List Tool) (r : Registry) (t : Tool)
    (hreg : registerFrom Registry.empty ts = Except.ok r) (ht : t ∈ ts) :
    r.lookup t.name = Except.ok t := by
  unfold Registry.lookup
  rw [registerFrom_mem ts Registry.empty r t hreg ht]

theorem claim5_register_lookup_roundtrip_witness :
    demoRegistry.lookup okTool.name = Except.ok okTool :=
  claim5_register_lookup_roundtrip [failingTool, okTool] demoRegistry okTool rfl
    (List.mem_cons_of_mem _ (List.mem_cons_self _ _))

/-- Claim C6 (spec-modelled): looking up a name that was never registered
fails with ToolNotFoundError carrying that name, and with no other
outcome. -/
theorem claim6_lookup_unregistered (ts : List Tool) (r : Registry) (n : String)
    (hreg : registerFrom Registry.empty ts = Except.ok r)
    (hn : n ∉ ts.map Tool.name) :
    r.lookup n = Except.error ⟨n⟩ := by
  have hnone : r.tools.lookup n = none :=
    registerFrom_absent ts Registry.empty r n hreg rfl hn
  unfold Registry.lookup
  rw [hnone]

theorem claim6_lookup_unregistered_witness :
    demoRegistry.lookup "get_stock_price" = Except.error ⟨"get_stock_price"⟩ :=
  claim6_lookup_unregistered [failingTool, okTool] demoRegistry "get_stock_price" rfl
    (by decide)

theorem dispatchGo_success (task direct : String)
    (sel : List (Tool × List (String × String))) (used reports : List String)
    (h : ∀ p ∈ sel, (p.1.invoke p.2).lookup "status" ≠ some "error") :
    (dispatchGo task direct sel used reports).status = "success" := by
  induction sel generalizing used reports with
  | nil => rfl
  | cons p rest ih =>
    obtain ⟨t, args⟩ := p
    unfold dispatchGo
    split
    · rename_i hcond
      exact absurd hcond (h (t, args) (List.mem_cons_self _ _))
    · exact ih _ _ (fun q hq => h q (List.mem_cons_of_mem _ hq))

theorem dispatchGo_error (task direct : String)
    (pre : List (Tool × List (String × String))) (t : Tool)
    (args : List (String × String)) (post : List (Tool × List (String × String)))
    (used reports : List String)
    (hpre : ∀ p ∈ pre, (p.1.invoke p.2).lookup "status" ≠ some "error")
    (ht : (t.invoke args).lookup "status" = some "error") :
    (dispatchGo task direct (pre ++ (t, args) :: post) used reports).status = "error" ∧
    (dispatchGo task direct (pre ++ (t, args) :: post) used reports).result =
      ((t.invoke args).lookup "error_message").getD "" := by
  induction pre generalizing used reports with
  | nil =>
    rw [List.nil_append]
    unfold dispatchGo
    rw [if_pos ht]
    exact ⟨rfl, rfl⟩
  | cons q rest ih =>
    obtain ⟨u, uargs⟩ := q
    rw [List.cons_append]
    unfold dispatchGo
    rw [if_neg (hpre (u, uargs) (List.mem_cons_self _ _))]
    exact ih _ _ (fun p hp => hpre p (List.mem_cons_of_mem _ hp))

/-- Claim C7 (spec-modelled, abort-on-first-failure policy): a run in which
every invoked tool succeeds has aggregate status success; a run whose
selection reaches a tool returning an error envelope has aggregate status
error and surfaces that tool's error_message as the result rather than
discarding it. -/
theorem claim7_dispatch_aggregation (task direct : String)
    (sel : List (Tool × List (String × String))) :
    ((∀ p ∈ sel, (p.1.invoke p.2).lookup "status" ≠ some "error") →
      (dispatchRun task direct sel).status = "success") ∧
    (∀ pre t args post,
      sel = pre ++ (t, args) :: post →
      (∀ p ∈ pre, (p.1.invoke p.2).lookup "status" ≠ some "error") →
      (t.invoke args).lookup "status" = some "error" →
      (dispatchRun task direct sel).status = "error" ∧
      (dispatchRun task direct sel).result =
        ((t.invoke args).lookup "error_message").getD "" ∧
      strContains (dispatchRun task direct sel).result
        (((t.invoke args).lookup "error_message").getD "")) := by
  constructor
  · intro h
    exact dispatchGo_success task direct sel [] [] h
  · intro pre t args post hsel hpre ht
    subst hsel
    obtain ⟨h1, h2⟩ := dispatchGo_error task direct pre t args post [] [] hpre ht
    refine ⟨h1, h2, ?_⟩
    show strContains (dispatchGo task direct (pre ++ (t, args) :: post) [] []).result _
    rw [h2]
    exact strContains_refl _

theorem claim7_dispatch_aggregation_witness :
    (dispatchRun "What time is it in Paris?" "" [(okTool, []), (failingTool, [])]).status
        = "error" ∧
    (dispatchRun "What time is it in Paris?" "" [(okTool, []), (failingTool, [])]).result
        = ((failingTool.invoke []).lookup "error_message").getD "" ∧
    strContains
      (dispatchRun "What time is it in Paris?" "" [(okTool, []), (failingTool, [])]).result
      (((failingTool.invoke []).lookup "error_message").getD "") :=
  (claim7_dispatch_aggregation "What time is it in Paris?" ""
      [(okTool, []), (failingTool, [])]).2 [(okTool, [])] failingTool [] [] rfl
    (by
      intro p hp
      rw [List.mem_singleton] at hp
      subst hp
      decide)
    rfl

theorem replRun_stops_iff (evts : List ReplEvent) :
    (replRun evts).2 = true ↔ evts.any replStops = true := by
  induction evts with
  | nil => simp [replRun]
  | cons e rest ih =>
    cases e with
    | interrupt => simp [replRun, replStops]
    | line s =>
      by_cases hx : (s.toLower == "exit" || s.toLower == "quit") = true
      · simp [replRun, replStops, hx]
      · by_cases ht : (s.toLower == "tools") = true
        · simp [replRun, replStops, hx, ht, ih]
        · simp [replRun, replStops, hx, ht, ih]

theorem replRun_actions (evts : List ReplEvent) :
    (replRun evts).1 = lineActions (evts.takeWhile (fun e => !replStops e)) := by
  induction evts with
  | nil => rfl
  | cons e rest ih =>
    cases e with
    | interrupt => simp [replRun, replStops, List.takeWhile_cons, lineActions]
    | line s =>
      by_cases hx : (s.toLower == "exit" || s.toLower == "quit") = true
      · simp [replRun, replStops, hx, List.takeWhile_cons, lineActions]
      · by_cases ht : (s.toLower == "tools") = true
        · simp [replRun, replStops, hx, ht, List.takeWhile_cons, lineActions,
            replAction, ih]
        · simp [replRun, replStops, hx, ht, List.takeWhile_cons, lineActions,
            replAction, ih]

/-- Claim C8: with no task argument the CLI enters the interactive loop, and
the loop terminates exactly at the first entered line whose lowercasing is
exit or quit, or at a KeyboardInterrupt; every earlier line is processed
(tools listing or task run) and the loop continues over it. -/
theorem claim8_repl_termination :
    mainMode false none = CliMode.interactive ∧
    (∀ s, replStops (ReplEvent.line s) = (s.toLower == "exit" || s.toLower == "quit")) ∧
    replStops ReplEvent.interrupt = true ∧
    (∀ evts, ((replRun evts).2 = true ↔ evts.any replStops = true)) ∧
    (∀ evts, (replRun evts).1 = lineActions (evts.takeWhile (fun e => !replStops e))) :=
  ⟨rfl, fun _ => rfl, rfl, replRun_stops_iff, replRun_actions⟩
